import Mathlib

/-!
Verification of the DeepOta repository (deep_ota.py worker and
deep_ota_front.py supervisor) against its natural-language specification.

The Python sources are shallowly embedded: module-level mutable state is made
explicit (state records threaded through functions), the MQTT broker, the
subprocesses and the wall clock are represented by oracles passed in as data,
and Python exceptions are represented with `Option`/`Except`.
-/

/-- Shared state vocabulary. Mirrors the `DeviceState` Enum that is duplicated
verbatim in `deep_ota.py` and `deep_ota_front.py`. -/
inductive DeviceState where
  | STARTING
  | END
  | COMPILING
  | SYNCING
  | UPLOADING
  | MQTT_ERROR
  | SYNCING_ERROR
  | COMPILE_ERROR
  | TRANSMIT_ERROR
  | ERROR
  | SUCCESS
  | CANCELLED
  | NONE
  deriving DecidableEq, Repr

namespace DeepOta

/-- Mirrors the `Result` Enum of `deep_ota.py`. -/
inductive Result where
  | OK
  | ERR_MQTT_CONNECT
  | ERR_MQTT_SEND
  | ERR_MQTT_RECEIVE
  | ERR_COMPILE
  | ERR_TRANSMIT
  | ERR_TIMEOUT
  deriving DecidableEq, Repr

/-- External world of one worker run: exit codes of the two subprocess calls,
success of the broker operations (`send_msg` returns `False` exactly when the
publish call raises, since its retry loop `while (count >= 5) ...` is dead
code), whether a `KeyboardInterrupt` arrives during the wake wait, and what
the `on_message` callback has made of `device_is_ready` at each whole second
of the wait. `interrupt` is only the in-process, catchable SIGINT of a
standalone run (`except KeyboardInterrupt`, after which the `finally` still
runs); it is NOT the supervisor's cancellation, which instead goes
`stop_upload` → `task.cancel()` → `do_upload`'s `CancelledError` handler →
`proc.kill()` and SIGKILLs the worker with no `finally` — that path is
modelled by `supervised_run` below. -/
structure WorkerWorld where
  compileExit : Int
  connectOk : Bool
  clearOk : Bool
  intentOk : Bool
  interrupt : Bool
  transmitExit : Int
  ready : Nat -> Bool

/-- `compile_code`: `{ 0: Result.OK }.get(res, Result.ERR_COMPILE)`. -/
def compile_code (exit : Int) : Result :=
  if exit = 0 then Result.OK else Result.ERR_COMPILE

/-- `connect_to_mqtt`: `Result.OK` or `Result.ERR_MQTT_CONNECT`. -/
def connect_to_mqtt (ok : Bool) : Result :=
  if ok then Result.OK else Result.ERR_MQTT_CONNECT

/-- `clear_topic`: publishes an empty retained payload on `.../ota-req`. -/
def clear_topic (ok : Bool) : Result :=
  if ok then Result.OK else Result.ERR_MQTT_SEND

/-- `send_ota_intent`: publishes "ON" on `.../ota-req`. -/
def send_ota_intent (ok : Bool) : Result :=
  if ok then Result.OK else Result.ERR_MQTT_SEND

/-- `transmit_code`: `{ 0: Result.OK }.get(res, Result.ERR_TRANSMIT)`. -/
def transmit_code (exit : Int) : Result :=
  if exit = 0 then Result.OK else Result.ERR_TRANSMIT

/-- The polling loop of `wait_for_device_ready`:
`while (end_time > time.time()) and not device_is_ready: time.sleep(1)`.
Time is discretized to whole seconds starting at 0; `fuel` is an upper bound
on the number of iterations, sufficient fuel never runs out. Returns the time
at which the loop exits. -/
def waitLoop (deadline : Rat) (ready : Nat -> Bool) : Nat -> Nat -> Nat
  | 0, t => t
  | fuel + 1, t =>
    if (t : Rat) < deadline && !(ready t) then waitLoop deadline ready fuel (t + 1) else t

/-- `wait_for_device_ready`. The Python deadline is
`time.time() + 1.1 * deep_sleep_duration` (a float); it is modelled exactly as
the rational `11 * duration / 10`, and `deep_sleep_duration` is an `int`
(`int(sys.argv[2])`). Returns the result and the loop exit time. -/
def wait_for_device_ready (duration : Nat) (ready : Nat -> Bool) : Result × Nat :=
  let deadline : Rat := 11 * (duration : Rat) / 10
  let tEnd := waitLoop deadline ready (11 * duration / 10 + 2) 0
  (if ready tEnd then Result.OK else Result.ERR_TIMEOUT, tEnd)

/-- The actions of the `finally` block of `run`:
`send_ota_completed(); time.sleep(5); clear_topic(); time.sleep(5)`. -/
inductive CleanAct where
  | sendOff
  | sleepSec (n : Nat)
  | clearReq
  deriving DecidableEq, Repr

/-- Observable trace of one `run` of `deep_ota.py`. -/
structure RunTrace where
  res : Result
  cleanup : List CleanAct
  transmitRan : Bool
  waitEnd : Option Nat
  finalState : DeviceState
  exitStatus : Nat
  deriving DecidableEq, Repr

/-- The final `sys.exit({ Result.OK: 0, Result.ERR_TIMEOUT: 2 }.get(res, 1))`. -/
def exitStatusOf (res : Result) : Nat :=
  if res = Result.OK then 0 else if res = Result.ERR_TIMEOUT then 2 else 1

/-- The final log state:
`{ Result.OK: SUCCESS, Result.ERR_TIMEOUT: SYNCING_ERROR }.get(res, ERROR)`. -/
def endStateOf (res : Result) : DeviceState :=
  if res = Result.OK then DeviceState.SUCCESS
  else if res = Result.ERR_TIMEOUT then DeviceState.SYNCING_ERROR
  else DeviceState.ERROR

/-- The early-exit chaining of steps 1–4 of `run`:
`res = compile_code(); if res == OK: res = connect_to_mqtt(); ...` up to and
including `send_ota_intent`. -/
def pipelineRes (w : WorkerWorld) : Result :=
  let res1 := compile_code w.compileExit
  let res2 := if res1 = Result.OK then connect_to_mqtt w.connectOk else res1
  let res3 := if res2 = Result.OK then clear_topic w.clearOk else res2
  if res3 = Result.OK then send_ota_intent w.intentOk else res3

/-- The `try` block of `run`: `res = wait_for_device_ready()` then, on
success, `res = transmit_code()`, with `except KeyboardInterrupt` logging
"Aborting..." (the interrupt is modelled as arriving during the wait, the
only long suspension; `res` then keeps the value `Result.OK` it had from
`send_ota_intent`). Returns the result, the wait exit time if the wait
finished, and whether the transmit step ran. -/
def guardedRegion (duration : Nat) (w : WorkerWorld) : Result × Option Nat × Bool :=
  if w.interrupt then (Result.OK, none, false)
  else
    let wr := wait_for_device_ready duration w.ready
    if wr.1 = Result.OK then (transmit_code w.transmitExit, some wr.2, true)
    else (wr.1, some wr.2, false)

/-- The pipeline of `run` in `deep_ota.py`: steps 1–4, then — only if all of
them returned `Result.OK` — the `try` block with its `finally` block
performing the cleanup sends. -/
def deep_ota_run (duration : Nat) (w : WorkerWorld) : RunTrace :=
  if pipelineRes w = Result.OK then
    let inner := guardedRegion duration w
    { res := inner.1
      cleanup := [CleanAct.sendOff, CleanAct.sleepSec 5, CleanAct.clearReq, CleanAct.sleepSec 5]
      transmitRan := inner.2.2
      waitEnd := inner.2.1
      finalState := endStateOf inner.1
      exitStatus := exitStatusOf inner.1 }
  else
    { res := pipelineRes w
      cleanup := []
      transmitRan := false
      waitEnd := none
      finalState := endStateOf (pipelineRes w)
      exitStatus := exitStatusOf (pipelineRes w) }

/-- Steps 1–4 of the pipeline all succeeded: the compile exit code is 0 and
the connect, topic-clear and intent publishes all went through. -/
def introOk (w : WorkerWorld) : Bool :=
  (w.compileExit == 0) && w.connectOk && w.clearOk && w.intentOk

/-- The chained result of steps 1–4 is `OK` exactly when every step
succeeded. -/
theorem pipelineRes_eq_OK (w : WorkerWorld) :
    pipelineRes w = Result.OK ↔ introOk w = true := by
  by_cases hc : w.compileExit = 0 <;>
    by_cases hco : w.connectOk <;>
      by_cases hcl : w.clearOk <;>
        by_cases hi : w.intentOk <;>
          simp [pipelineRes, introOk, compile_code, connect_to_mqtt, clear_topic,
            send_ota_intent, hc, hco, hcl, hi]

end DeepOta

namespace DeepOta

/-- A wake wait during which the device never reports "READY". -/
def neverReady : Nat -> Bool := fun _ => false

/-- A run whose compile, connect and publishes all succeed, with no
interrupt, against a device that never reports "READY". -/
def timeoutWorld : WorkerWorld :=
  { compileExit := 0, connectOk := true, clearOk := true, intentOk := true,
    interrupt := false, transmitExit := 0, ready := neverReady }

theorem waitLoop_neverReady (deadline : Rat) (fuel : Nat) : ∀ t : Nat,
    (t : Rat) < deadline + 1 → deadline ≤ (t : Rat) + (fuel : Rat) →
    deadline ≤ (waitLoop deadline neverReady fuel t : Rat) ∧
      (waitLoop deadline neverReady fuel t : Rat) < deadline + 1 := by
  induction fuel with
  | zero =>
    intro t h1 h2
    simp only [waitLoop]
    exact ⟨by simpa using h2, h1⟩
  | succ n ih =>
    intro t h1 h2
    by_cases h : (t : Rat) < deadline
    · have hstep : waitLoop deadline neverReady (n + 1) t = waitLoop deadline neverReady n (t + 1) := by
        simp [waitLoop, neverReady, h]
      rw [hstep]
      have := ih (t + 1) (by push_cast; linarith) (by push_cast at h2 ⊢; linarith)
      simpa using this
    · have hstep : waitLoop deadline neverReady (n + 1) t = t := by
        simp [waitLoop, neverReady, h]
      rw [hstep]
      exact ⟨le_of_not_lt h, h1⟩

theorem wait_neverReady (d : Nat) :
    (wait_for_device_ready d neverReady).1 = Result.ERR_TIMEOUT ∧
      11 * (d : Rat) / 10 ≤ ((wait_for_device_ready d neverReady).2 : Rat) ∧
      ((wait_for_device_ready d neverReady).2 : Rat) < 11 * (d : Rat) / 10 + 1 := by
  have hq : (0 : Rat) ≤ 11 * (d : Rat) / 10 := by positivity
  have hfuel : 11 * (d : Rat) / 10 ≤ ((11 * d / 10 + 2 : Nat) : Rat) := by
    have hmod := Nat.div_add_mod (11 * d) 10
    have hlt : (11 * d) % 10 < 10 := Nat.mod_lt _ (by norm_num)
    have hcast : (10 : Rat) * ((11 * d / 10 : Nat) : Rat) + (((11 * d) % 10 : Nat) : Rat)
        = 11 * (d : Rat) := by exact_mod_cast hmod
    have hltq : (((11 * d) % 10 : Nat) : Rat) < 10 := by exact_mod_cast hlt
    rw [div_le_iff₀ (by norm_num : (0 : Rat) < 10)]
    push_cast at hcast ⊢
    linarith
  have hmain := waitLoop_neverReady (11 * (d : Rat) / 10) (11 * d / 10 + 2) 0
    (by simpa using by linarith) (by simpa using hfuel)
  refine ⟨?_, ?_, ?_⟩
  · simp [wait_for_device_ready, neverReady]
  · simpa [wait_for_device_ready] using hmain.1
  · simpa [wait_for_device_ready] using hmain.2

/-- Both branches of `run` set the exit status from the final result by the
same dictionary lookup. -/
theorem run_exitStatus (d : Nat) (w : WorkerWorld) :
    (deep_ota_run d w).exitStatus = exitStatusOf (deep_ota_run d w).res := by
  by_cases h : pipelineRes w = Result.OK <;> simp [deep_ota_run, h]

/-- Both branches of `run` log the final state from the final result by the
same dictionary lookup. -/
theorem run_finalState (d : Nat) (w : WorkerWorld) :
    (deep_ota_run d w).finalState = endStateOf (deep_ota_run d w).res := by
  by_cases h : pipelineRes w = Result.OK <;> simp [deep_ota_run, h]

end DeepOta

namespace DeepOta

/-- What the supervisor (and the broker) observe of one worker run: the
cleanup sends the worker actually performed, whether it lived to reach
`sys.exit`, and, if so, with which status. -/
structure SupervisedTrace where
  cleanup : List CleanAct
  exited : Bool
  exitStatus : Option Nat
  deriving DecidableEq, Repr

/-- One worker run together with the supervisor's only cancellation
mechanism. When a `stop` is honoured (`stop_upload`, only while the device's
state is `SYNCING`), `self.task.cancel()` raises `CancelledError` inside
`do_upload`, whose handler calls `proc.kill()` — and `Process.kill` sends
SIGKILL. SIGKILL cannot be caught or delayed: it destroys the worker while
it sits in the `time.sleep(1)` of the wake wait, before the `finally`
block, so a run cancelled this way performs no cleanup send, emits nothing
further, and never reaches `sys.exit`. A run not cancelled this way behaves
as `deep_ota_run` (whose own `except KeyboardInterrupt` covers only the
in-process interrupt of a standalone run). Note the device is `SYNCING` —
so the supervisor can cancel — only after steps 1–4 succeeded and the wake
wait began. -/
def supervised_run (duration : Nat) (w : WorkerWorld) (cancelledMidWait : Bool) :
    SupervisedTrace :=
  if cancelledMidWait then
    { cleanup := [], exited := false, exitStatus := none }
  else
    { cleanup := (deep_ota_run duration w).cleanup
      exited := true
      exitStatus := some (deep_ota_run duration w).exitStatus }

end DeepOta

/-- C1 counterexample: a run whose steps 1–4 all succeeded — the "ON"
intent is retained on the request topic and the worker sits in the wake
wait, the device state is `SYNCING` — that the supervisor then cancels:
`task.cancel()`, `CancelledError` handler, `proc.kill()`. The SIGKILLed
worker performs neither the "OFF" publish nor the topic clear and never
exits: the unconditional cleanup does not execute although step 4 succeeded
and the engine was cancelled mid-wait, contradicting the claim. -/
theorem claim_C1_counterexample :
    DeepOta.introOk
        { compileExit := 0, connectOk := true, clearOk := true, intentOk := true,
          interrupt := false, transmitExit := 0, ready := DeepOta.neverReady } = true ∧
    (DeepOta.supervised_run 3
        { compileExit := 0, connectOk := true, clearOk := true, intentOk := true,
          interrupt := false, transmitExit := 0, ready := DeepOta.neverReady }
        true).cleanup = [] ∧
    (DeepOta.supervised_run 3
        { compileExit := 0, connectOk := true, clearOk := true, intentOk := true,
          interrupt := false, transmitExit := 0, ready := DeepOta.neverReady }
        true).exited = false :=
  ⟨rfl, rfl, rfl⟩

/-- C1 (amended): in every worker run in which steps 1–4 (compile, connect,
clear, publish intent) succeeded and which the supervisor does not cancel,
the cleanup — publish "OFF", sleep 5 s, clear the request topic, sleep 5 s —
executes no matter how the guarded region ended (success, timeout, transmit
failure, or a caught in-process KeyboardInterrupt during the wait), and the
worker reaches its exit; in every run in which a step at or before step 4
failed, no cleanup action is performed; but when the engine is cancelled
mid-wait by the supervisor (`task.cancel()` → `CancelledError` handler →
`proc.kill()`), the worker is SIGKILLed inside the wait before its `finally`
block: no cleanup action is performed and the worker never exits. -/
theorem claim_C1 (duration : Nat) (w : DeepOta.WorkerWorld) (cancelledMidWait : Bool) :
    (DeepOta.supervised_run duration w cancelledMidWait).cleanup =
      (if cancelledMidWait = false ∧ DeepOta.introOk w = true then
        [DeepOta.CleanAct.sendOff, DeepOta.CleanAct.sleepSec 5,
         DeepOta.CleanAct.clearReq, DeepOta.CleanAct.sleepSec 5]
      else []) ∧
    (DeepOta.supervised_run duration w cancelledMidWait).exited = !cancelledMidWait ∧
    (DeepOta.supervised_run duration w cancelledMidWait).exitStatus =
      (if cancelledMidWait then none
       else some (DeepOta.deep_ota_run duration w).exitStatus) := by
  cases cancelledMidWait with
  | true => exact ⟨by simp [DeepOta.supervised_run], rfl, rfl⟩
  | false =>
    refine ⟨?_, rfl, rfl⟩
    show (DeepOta.deep_ota_run duration w).cleanup = _
    by_cases h : DeepOta.pipelineRes w = DeepOta.Result.OK
    · have hok := (DeepOta.pipelineRes_eq_OK w).mp h
      simp [DeepOta.deep_ota_run, h, hok]
    · have hnok : DeepOta.introOk w = false := by
        rcases Bool.eq_false_or_eq_true (DeepOta.introOk w) with hb | hb
        · exact absurd ((DeepOta.pipelineRes_eq_OK w).mpr hb) h
        · exact hb
      simp [DeepOta.deep_ota_run, h, hnok]

/-- C5 counterexample: in a run where steps 1–4 succeed and a
`KeyboardInterrupt` (the worker-side form of cancellation) arrives during the
wake wait, the `except KeyboardInterrupt` handler swallows the interrupt and
`res` keeps the value `Result.OK` it had from `send_ota_intent`; the transmit
step never ran — the run is not a success and not a wake-wait timeout — yet
the worker exits with status 0, not 1 as the claim requires, and even logs
`SUCCESS`. -/
theorem claim_C5_counterexample :
    (DeepOta.deep_ota_run 3
        { compileExit := 0, connectOk := true, clearOk := true, intentOk := true,
          interrupt := true, transmitExit := 0, ready := DeepOta.neverReady }).transmitRan
        = false ∧
    (DeepOta.deep_ota_run 3
        { compileExit := 0, connectOk := true, clearOk := true, intentOk := true,
          interrupt := true, transmitExit := 0, ready := DeepOta.neverReady }).res
        ≠ DeepOta.Result.ERR_TIMEOUT ∧
    (DeepOta.deep_ota_run 3
        { compileExit := 0, connectOk := true, clearOk := true, intentOk := true,
          interrupt := true, transmitExit := 0, ready := DeepOta.neverReady }).exitStatus
        = 0 := by
  refine ⟨rfl, ?_, rfl⟩
  intro h
  simp [DeepOta.deep_ota_run, DeepOta.pipelineRes, DeepOta.guardedRegion,
    DeepOta.compile_code, DeepOta.connect_to_mqtt, DeepOta.clear_topic,
    DeepOta.send_ota_intent] at h

/-- C5 (amended): a worker with a configured sleep duration that never
receives "READY" leaves the wake wait with `ERR_TIMEOUT` at a time t with
1.1·duration ≤ t < 1.1·duration + 1 (the 1-second polling granularity), and
such a run reaches `SYNCING_ERROR` and exits with status 2. The final exit
status is 0 whenever the recorded result is `OK` — which covers genuine
success and also a run interrupted during the wake wait, whose interrupt
leaves the recorded result `OK` — 2 on wake-wait timeout, and 1 in every
other case. -/
theorem claim_C5 (d : Nat) (w : DeepOta.WorkerWorld) :
    ((DeepOta.wait_for_device_ready d DeepOta.neverReady).1 = DeepOta.Result.ERR_TIMEOUT ∧
      11 * (d : Rat) / 10 ≤ ((DeepOta.wait_for_device_ready d DeepOta.neverReady).2 : Rat) ∧
      ((DeepOta.wait_for_device_ready d DeepOta.neverReady).2 : Rat) < 11 * (d : Rat) / 10 + 1) ∧
    ((DeepOta.deep_ota_run d DeepOta.timeoutWorld).exitStatus = 2 ∧
      (DeepOta.deep_ota_run d DeepOta.timeoutWorld).finalState = DeviceState.SYNCING_ERROR) ∧
    ((DeepOta.deep_ota_run d w).res = DeepOta.Result.OK →
      (DeepOta.deep_ota_run d w).exitStatus = 0) ∧
    ((DeepOta.deep_ota_run d w).res = DeepOta.Result.ERR_TIMEOUT →
      (DeepOta.deep_ota_run d w).exitStatus = 2) ∧
    ((DeepOta.deep_ota_run d w).res ≠ DeepOta.Result.OK →
      (DeepOta.deep_ota_run d w).res ≠ DeepOta.Result.ERR_TIMEOUT →
      (DeepOta.deep_ota_run d w).exitStatus = 1) ∧
    (w.interrupt = true → DeepOta.introOk w = true →
      (DeepOta.deep_ota_run d w).res = DeepOta.Result.OK ∧
      (DeepOta.deep_ota_run d w).transmitRan = false) := by
  have hwait := DeepOta.wait_neverReady d
  refine ⟨hwait, ?_, ?_, ?_, ?_, ?_⟩
  · have hres : (DeepOta.deep_ota_run d DeepOta.timeoutWorld).res = DeepOta.Result.ERR_TIMEOUT := by
      have hpi : DeepOta.pipelineRes DeepOta.timeoutWorld = DeepOta.Result.OK := by rfl
      have hint : DeepOta.timeoutWorld.interrupt = false := rfl
      have hready : DeepOta.timeoutWorld.ready = DeepOta.neverReady := rfl
      simp [DeepOta.deep_ota_run, hpi, DeepOta.guardedRegion, hint, hready, hwait.1]
    refine ⟨?_, ?_⟩
    · rw [DeepOta.run_exitStatus, hres]; rfl
    · rw [DeepOta.run_finalState, hres]; rfl
  · intro h; rw [DeepOta.run_exitStatus, h]; rfl
  · intro h; rw [DeepOta.run_exitStatus, h]; rfl
  · intro h1 h2
    rw [DeepOta.run_exitStatus]
    simp [DeepOta.exitStatusOf, h1, h2]
  · intro hint hok
    have hpi := (DeepOta.pipelineRes_eq_OK w).mpr hok
    simp [DeepOta.deep_ota_run, hpi, DeepOta.guardedRegion, hint]

/-- C5 witness: the amended claim applied at a concrete failing compile
(exit code 7): the recorded result is neither `OK` nor `ERR_TIMEOUT`, and the
exit status is 1. -/
theorem claim_C5_witness :
    (DeepOta.deep_ota_run 3
        { compileExit := 7, connectOk := true, clearOk := true, intentOk := true,
          interrupt := false, transmitExit := 0, ready := DeepOta.neverReady }).res
        ≠ DeepOta.Result.OK ∧
    (DeepOta.deep_ota_run 3
        { compileExit := 7, connectOk := true, clearOk := true, intentOk := true,
          interrupt := false, transmitExit := 0, ready := DeepOta.neverReady }).res
        ≠ DeepOta.Result.ERR_TIMEOUT ∧
    (DeepOta.deep_ota_run 3
        { compileExit := 7, connectOk := true, clearOk := true, intentOk := true,
          interrupt := false, transmitExit := 0, ready := DeepOta.neverReady }).exitStatus
        = 1 :=
  ⟨by decide, by decide,
    (claim_C5 3 _).2.2.2.2.1 (by decide) (by decide)⟩

namespace Front

/-- A fragment of Python's value universe sufficient for what
`build_device_list` and `get_sleep_duration` touch in a parsed YAML document.
YAML mapping keys in the device files are strings, so dictionaries are
modelled with string keys; `pnone` is Python's `None` (also what `yaml.load`
returns for an empty document). -/
inductive PyVal where
  | pstr (s : String)
  | pint (n : Int)
  | pdict (entries : List (String × PyVal))
  | plist (items : List PyVal)
  | pnone

/-- Python exceptions surfacing in the registry scan. -/
inductive PyExc where
  | attributeError
  | indexError
  | typeError
  | ioError
  | yamlError
  deriving DecidableEq, Repr

/-- Dictionary `d.get(k)`: the value under `k`, or `None` when absent. -/
def lookupKey (es : List (String × PyVal)) (k : String) : PyVal :=
  match es.find? (fun e => e.1 == k) with
  | some e => e.2
  | none => PyVal.pnone

/-- `v.get(k)`: dictionary lookup on a dict, `AttributeError` on anything
else (including `None`). -/
def PyVal.pyGet : PyVal → String → Except PyExc PyVal
  | .pdict es, k => .ok (lookupKey es k)
  | _, _ => .error .attributeError

/-- `v == None` in the source's `!= None` guards. -/
def PyVal.isNone : PyVal → Bool
  | .pnone => true
  | _ => false

/-- An ASCII decimal digit, the `\d` class of the duration pattern. -/
def digitCh (c : Char) : Bool := '0' ≤ c ∧ c ≤ '9'

/-- The `[a-z]` class of the duration pattern. -/
def lowerCh (c : Char) : Bool := 'a' ≤ c ∧ c ≤ 'z'

/-- `re.search("(^\d+)([a-z]+)$", dur)`: the anchors force the whole string
to be one nonempty digit run followed by one nonempty lowercase run; since
the two classes are disjoint, the maximal-munch split below is exactly the
regex's decomposition. Returns the two groups on a match. -/
def durMatch (s : String) : Option (List Char × List Char) :=
  let cs := s.toList
  let ds := cs.takeWhile digitCh
  let rest := cs.dropWhile digitCh
  if ds ≠ [] ∧ rest ≠ [] ∧ rest.all lowerCh then some (ds, rest) else none

/-- `int(...)` on a decimal digit string. -/
def charsToNat (ds : List Char) : Nat :=
  ds.foldl (fun a c => a * 10 + (c.toNat - 48)) 0

/-- `get_sleep_duration(deep)` of `deep_ota_front.py`. A non-dict argument or
a non-string `sleep_duration` yields 0; a matched digits+unit string yields
the scaled value (an unknown unit yields 0); a string that does not match the
pattern makes `m.lastindex` blow up on `None` with an `AttributeError`. -/
def get_sleep_duration (deep : PyVal) : Except PyExc Nat :=
  match deep with
  | .pdict es =>
    match lookupKey es "sleep_duration" with
    | .pstr s =>
      match durMatch s with
      | none => .error .attributeError
      | some (ds, unit) =>
        let d := charsToNat ds
        if unit = ['m', 'i', 'n'] then .ok (d * 60)
        else if unit = ['h'] then .ok (d * 60 * 60)
        else if unit ≠ ['s'] then .ok 0
        else .ok d
    | _ => .ok 0
  | _ => .ok 0

/-- The registry record built by `Device(device_name = ..,
deep_sleep_duration = ..)`; the remaining `Device` fields take their
defaults. -/
structure RDev where
  device_name : PyVal
  deep_sleep_duration : Nat

/-- Equality usable as a `device_list` dictionary key: Python hashes the
scalar values; an unhashable dict or list key raises `TypeError`. -/
def keyEqb : PyVal → PyVal → Bool
  | .pstr a, .pstr b => a == b
  | .pint a, .pint b => a == b
  | .pnone, .pnone => true
  | _, _ => false

/-- The `device_list` module-level dictionary. -/
def RegMap := List (PyVal × RDev)

/-- `device_list[dev_name] = Device(...)`: replace an existing key or append. -/
def upsert (m : List (PyVal × RDev)) (k : PyVal) (v : RDev) : List (PyVal × RDev) :=
  match m with
  | [] => [(k, v)]
  | e :: es => if keyEqb e.1 k then (k, v) :: es else e :: upsert es k v

/-- One iteration of the `for file_name in glob.glob(...)` body of
`build_device_list`, over the outcome of `yaml.load` for that file. `none`
means an exception escaped the iteration into the surrounding `try`. -/
def scanStep (dl : List (PyVal × RDev)) (file : Except PyExc PyVal) :
    Option (List (PyVal × RDev)) :=
  match file with
  | .error _ => none
  | .ok content =>
    match content.pyGet "esphome" with
    | .error _ => none
    | .ok esphome =>
      if esphome.isNone then some dl
      else
        match esphome.pyGet "name" with
        | .error _ => none
        | .ok dev_name =>
          if dev_name.isNone then some dl
          else
            match content.pyGet "deep_sleep" with
            | .error _ => none
            | .ok deeps =>
              if deeps.isNone then some dl
              else
                let durE : Except PyExc Nat :=
                  match deeps with
                  | .pdict es => get_sleep_duration (.pdict es)
                  | .plist items =>
                    match items with
                    | [] => .error .indexError
                    | x :: _ => get_sleep_duration x
                  | _ => .ok 0
                match durE with
                | .error _ => none
                | .ok duration =>
                  if duration ≠ 0 then
                    match dev_name with
                    | .pdict _ => none
                    | .plist _ => none
                    | _ => some (upsert dl dev_name ⟨dev_name, duration⟩)
                  else some dl

/-- `build_device_list`, run against the list of per-file `yaml.load`
outcomes the directory glob produces, starting from the current
`device_list`. The whole loop sits in one `try`: the first escaping
exception is caught, `False` is returned — and `device_list` keeps whatever
the earlier iterations stored in it. -/
def build_device_list (dl : List (PyVal × RDev)) :
    List (Except PyExc PyVal) → Bool × List (PyVal × RDev)
  | [] => (true, dl)
  | f :: fs =>
    match scanStep dl f with
    | some dl1 => build_device_list dl1 fs
    | none => (false, dl)

/-- A well-formed device file for device `n` with duration string `dur`. -/
def sampleFile (n : String) (dur : String) : PyVal :=
  .pdict [("esphome", .pdict [("name", .pstr n)]),
          ("deep_sleep", .pdict [("sleep_duration", .pstr dur)])]

end Front

/-- C6 counterexample: a sleep-duration string with a non-numeric prefix
("h24") does not match `(^\d+)([a-z]+)$`, so `re.search` returns `None` and
`m.lastindex` raises `AttributeError` — the parse does not yield duration 0,
it raises out of `get_sleep_duration` (and, uncaught there, aborts the whole
registry scan). -/
theorem claim_C6_counterexample :
    Front.get_sleep_duration
        (Front.PyVal.pdict [("sleep_duration", Front.PyVal.pstr "h24")])
      = Except.error Front.PyExc.attributeError := rfl

/-- C6 (amended): parsing a sleep-duration string of digits followed by "h"
multiplies by 3600 ("24h" gives 86400), by "min" multiplies by 60 ("10min"
gives 600), by "s" keeps the number ("45s" gives 45); a digit string with any
other lowercase-letter suffix yields 0 (device discarded); but a string that
does not match digits-followed-by-lowercase-letters raises an
`AttributeError` instead of yielding 0. -/
theorem claim_C6 (s : String) (ds unit : List Char) :
    Front.get_sleep_duration
        (Front.PyVal.pdict [("sleep_duration", Front.PyVal.pstr "24h")]) = .ok 86400 ∧
    Front.get_sleep_duration
        (Front.PyVal.pdict [("sleep_duration", Front.PyVal.pstr "10min")]) = .ok 600 ∧
    Front.get_sleep_duration
        (Front.PyVal.pdict [("sleep_duration", Front.PyVal.pstr "45s")]) = .ok 45 ∧
    (Front.durMatch s = some (ds, unit) → unit ≠ ['m', 'i', 'n'] → unit ≠ ['h'] →
      unit ≠ ['s'] →
      Front.get_sleep_duration
        (Front.PyVal.pdict [("sleep_duration", Front.PyVal.pstr s)]) = .ok 0) ∧
    (Front.durMatch s = none →
      Front.get_sleep_duration
        (Front.PyVal.pdict [("sleep_duration", Front.PyVal.pstr s)])
        = .error Front.PyExc.attributeError) := by
  refine ⟨rfl, rfl, rfl, ?_, ?_⟩
  · intro h hmin hh hs
    simp [Front.get_sleep_duration, Front.lookupKey, h, hmin, hh, hs]
  · intro h
    simp [Front.get_sleep_duration, Front.lookupKey, h]

/-- C6 witness: the amended claim applied to "24x" — a digit prefix with an
unknown unit suffix parses to 0. -/
theorem claim_C6_witness :
    Front.durMatch "24x" = some (['2', '4'], ['x']) ∧
    Front.get_sleep_duration
        (Front.PyVal.pdict [("sleep_duration", Front.PyVal.pstr "24x")]) = .ok 0 :=
  ⟨rfl, (claim_C6 "24x" ['2', '4'] ['x']).2.2.2.1 rfl (by decide) (by decide) (by decide)⟩

/-- C7 counterexample: a scan over a config file whose sleep-duration string
"abc" matches no digits-then-unit pattern, followed by a perfectly valid
file for device "b": the first file raises `AttributeError` out of
`get_sleep_duration`, the surrounding `try` aborts the whole loop, and "b"
is never scanned — the device with the unparseable duration is not merely
discarded and the scan does not continue. -/
theorem claim_C7_counterexample :
    Front.build_device_list []
        [.ok (Front.sampleFile "a" "abc"), .ok (Front.sampleFile "b" "24h")]
      = (false, []) := rfl

/-- C7 (amended): a config file lacking an `esphome` section, lacking
`esphome.name`, lacking a `deep_sleep` section, or whose sleep duration
parses to 0 (digit prefix with an unrecognized unit) is discarded and the
scan continues with the remaining files; but a sleep-duration string that
does not match digits-followed-by-lowercase-letters raises out of
`get_sleep_duration` and aborts the scan of the remaining files. -/
theorem claim_C7 (dl : List (Front.PyVal × Front.RDev)) (es es2 es3 : List (String × Front.PyVal))
    (n : String) (e : Front.PyExc) (fs : List (Except Front.PyExc Front.PyVal)) :
    (Front.lookupKey es "esphome" = Front.PyVal.pnone →
      Front.build_device_list dl (.ok (Front.PyVal.pdict es) :: fs)
        = Front.build_device_list dl fs) ∧
    (Front.lookupKey es "esphome" = Front.PyVal.pdict es2 →
      Front.lookupKey es2 "name" = Front.PyVal.pnone →
      Front.build_device_list dl (.ok (Front.PyVal.pdict es) :: fs)
        = Front.build_device_list dl fs) ∧
    (Front.lookupKey es "esphome" = Front.PyVal.pdict es2 →
      Front.lookupKey es2 "name" = Front.PyVal.pstr n →
      Front.lookupKey es "deep_sleep" = Front.PyVal.pnone →
      Front.build_device_list dl (.ok (Front.PyVal.pdict es) :: fs)
        = Front.build_device_list dl fs) ∧
    (Front.lookupKey es "esphome" = Front.PyVal.pdict es2 →
      Front.lookupKey es2 "name" = Front.PyVal.pstr n →
      Front.lookupKey es "deep_sleep" = Front.PyVal.pdict es3 →
      Front.get_sleep_duration (Front.PyVal.pdict es3) = .ok 0 →
      Front.build_device_list dl (.ok (Front.PyVal.pdict es) :: fs)
        = Front.build_device_list dl fs) ∧
    (Front.lookupKey es "esphome" = Front.PyVal.pdict es2 →
      Front.lookupKey es2 "name" = Front.PyVal.pstr n →
      Front.lookupKey es "deep_sleep" = Front.PyVal.pdict es3 →
      Front.get_sleep_duration (Front.PyVal.pdict es3) = .error e →
      Front.build_device_list dl (.ok (Front.PyVal.pdict es) :: fs) = (false, dl)) := by
  refine ⟨?_, ?_, ?_, ?_, ?_⟩
  · intro h
    simp [Front.build_device_list, Front.scanStep, Front.PyVal.pyGet, h, Front.PyVal.isNone]
  · intro h h2
    simp [Front.build_device_list, Front.scanStep, Front.PyVal.pyGet, h, h2,
      Front.PyVal.isNone]
  · intro h h2 h3
    simp [Front.build_device_list, Front.scanStep, Front.PyVal.pyGet, h, h2, h3,
      Front.PyVal.isNone]
  · intro h h2 h3 h4
    simp [Front.build_device_list, Front.scanStep, Front.PyVal.pyGet, h, h2, h3, h4,
      Front.PyVal.isNone]
  · intro h h2 h3 h4
    simp [Front.build_device_list, Front.scanStep, Front.PyVal.pyGet, h, h2, h3, h4,
      Front.PyVal.isNone]

/-- C7 witness: the amended claim applied to a file with no `esphome`
section followed by a valid file — the empty file is skipped and the valid
device "b" is still registered. -/
theorem claim_C7_witness :
    Front.lookupKey [] "esphome" = Front.PyVal.pnone ∧
    Front.build_device_list []
        (.ok (Front.PyVal.pdict []) :: [.ok (Front.sampleFile "b" "24h")])
      = Front.build_device_list [] [.ok (Front.sampleFile "b" "24h")] :=
  ⟨rfl, (claim_C7 [] [] [] [] "" Front.PyExc.ioError [.ok (Front.sampleFile "b" "24h")]).1 rfl⟩

/-- C4 counterexample: a scan that registers device "a" from a valid file and
then hits an I/O error on the next file returns `False` but leaves the
already-registered device in `device_list` — the table is partial, not
empty (`build_device_list` never clears the module-level dict, and `run`
even ignores the returned flag). -/
theorem claim_C4_counterexample :
    Front.build_device_list [] [.ok (Front.sampleFile "a" "45s"), .error .ioError]
        = (false, [(Front.PyVal.pstr "a", ⟨Front.PyVal.pstr "a", 45⟩)]) ∧
    (Front.build_device_list [] [.ok (Front.sampleFile "a" "45s"), .error .ioError]).2 ≠ [] := by
  refine ⟨rfl, ?_⟩
  have h1 : (Front.build_device_list [] [.ok (Front.sampleFile "a" "45s"), .error .ioError]).2
      = [(Front.PyVal.pstr "a", ⟨Front.PyVal.pstr "a", 45⟩)] := rfl
  rw [h1]
  exact List.cons_ne_nil _ _

/-- C4 (amended): a directory-scan-level failure partway through the scan
aborts the rest of the scan and makes `build_device_list` report failure,
but the device table keeps every entry added before the failure and the
remaining files are never scanned — a partial table remains, not an empty
one. -/
theorem claim_C4 (dl dl1 : List (Front.PyVal × Front.RDev))
    (fs1 fs2 : List (Except Front.PyExc Front.PyVal)) (f : Except Front.PyExc Front.PyVal)
    (h1 : Front.build_device_list dl fs1 = (true, dl1))
    (h2 : Front.scanStep dl1 f = none) :
    Front.build_device_list dl (fs1 ++ f :: fs2) = (false, dl1) := by
  induction fs1 generalizing dl with
  | nil =>
    simp only [Front.build_device_list, Prod.mk.injEq, true_and] at h1
    subst h1
    simp [Front.build_device_list, h2]
  | cons f0 fs ih =>
    simp only [List.cons_append, Front.build_device_list] at h1 ⊢
    cases hs : Front.scanStep dl f0 with
    | none => rw [hs] at h1; exact absurd h1 (by simp)
    | some dlx => rw [hs] at h1; exact ih dlx h1

/-- C4 witness: the amended claim applied to a one-good-file prefix followed
by a YAML parse failure: the scan reports failure with device "a" still in
the table. -/
theorem claim_C4_witness :
    Front.build_device_list [] [.ok (Front.sampleFile "a" "45s")]
        = (true, [(Front.PyVal.pstr "a", ⟨Front.PyVal.pstr "a", 45⟩)]) ∧
    Front.scanStep [(Front.PyVal.pstr "a", ⟨Front.PyVal.pstr "a", 45⟩)]
        (.error Front.PyExc.yamlError) = none ∧
    Front.build_device_list []
        ([.ok (Front.sampleFile "a" "45s")] ++ .error Front.PyExc.yamlError :: [])
      = (false, [(Front.PyVal.pstr "a", ⟨Front.PyVal.pstr "a", 45⟩)]) :=
  ⟨rfl, rfl, claim_C4 _ _ _ _ _ rfl rfl⟩

/-- `DeviceState[name]`: the Enum lookup by member name used on a parsed
status line; an unknown name raises `KeyError` (`none` here). -/
def DeviceState.fromName : String → Option DeviceState
  | "STARTING" => some .STARTING
  | "END" => some .END
  | "COMPILING" => some .COMPILING
  | "SYNCING" => some .SYNCING
  | "UPLOADING" => some .UPLOADING
  | "MQTT_ERROR" => some .MQTT_ERROR
  | "SYNCING_ERROR" => some .SYNCING_ERROR
  | "COMPILE_ERROR" => some .COMPILE_ERROR
  | "TRANSMIT_ERROR" => some .TRANSMIT_ERROR
  | "ERROR" => some .ERROR
  | "SUCCESS" => some .SUCCESS
  | "CANCELLED" => some .CANCELLED
  | "NONE" => some .NONE
  | _ => none

namespace Front

/-- A history entry `(time.time(), new_state)`. -/
abbrev Entry := Nat × DeviceState

/-- The `@dataclass Device` of `deep_ota_front.py`. `history = []` carries no
type annotation, so the dataclass treats it as a plain class attribute: one
list object shared by every instance. List objects live in an explicit heap
here (index = object identity); the class-level list is object 0, and a fresh
instance's `history` lookup resolves to it (`historyRef = 0`) until
`clear_history` rebinds the attribute to a fresh object. `task` holds the
identifier of the spawned worker task, if any. -/
structure Device where
  device_name : String
  deep_sleep_duration : Nat
  state : DeviceState := DeviceState.NONE
  last_upload : Int := -1
  task : Option Nat := none
  historyRef : Nat := 0
  deriving DecidableEq, Repr

/-- `Device(device_name = .., deep_sleep_duration = ..)` as the registry
builds it; every other field takes its dataclass default. -/
def Device.make (n : String) (dur : Nat) : Device :=
  { device_name := n, deep_sleep_duration := dur }

/-- Dereference a list object: the empty list for a dangling reference
(never produced by the embedded operations). -/
def heapGet (heap : List (List Entry)) (r : Nat) : List Entry :=
  (heap[r]?).getD []

/-- `set_state`: append `(time.time(), new_state)` to the list object behind
`self.history` (`append` mutates the object in place, so every alias sees
it), update `self.state`, and stamp `last_upload` on `SUCCESS`. -/
def set_state (heap : List (List Entry)) (d : Device) (new_state : DeviceState) (t : Nat) :
    List (List Entry) × Device :=
  (heap.set d.historyRef (heapGet heap d.historyRef ++ [(t, new_state)]),
   { d with
      state := new_state
      last_upload := if new_state = DeviceState.SUCCESS then (t : Int) else d.last_upload })

/-- `clear_history`: `self.history = []` allocates a fresh list object and
binds it as an instance attribute, leaving the class-level object alone. -/
def clear_history (heap : List (List Entry)) (d : Device) :
    List (List Entry) × Device :=
  (heap ++ [[]], { d with historyRef := heap.length })

/-- The `[a-z_\-]` class of the status-line pattern. -/
def devCh (c : Char) : Bool := ('a' ≤ c ∧ c ≤ 'z') ∨ c = '_' ∨ c = '-'

/-- The `[A-Z_]` class of the status-line pattern. -/
def stCh (c : Char) : Bool := ('A' ≤ c ∧ c ≤ 'Z') ∨ c = '_'

/-- `re.search("^\[([a-z_\-]+),([A-Z_]+)\]$", data)`: the anchors force the
whole (stripped) line to be `[`, a nonempty `[a-z_\-]` run, `,`, a nonempty
`[A-Z_]` run, `]`. Neither class contains `,` or `]`, so maximal munch is
exactly the regex's decomposition. Returns the two groups on a match; on a
non-match `re.search` returns `None` and the caller's `m.lastindex`
dereference raises. -/
def statusLineMatch (s : String) : Option (String × String) :=
  match s.toList with
  | '[' :: rest =>
    let g1 := rest.takeWhile devCh
    let r1 := rest.dropWhile devCh
    match r1 with
    | ',' :: r2 =>
      let g2 := r2.takeWhile stCh
      let r3 := r2.dropWhile stCh
      match r3 with
      | [']'] => if g1 ≠ [] ∧ g2 ≠ [] then some (String.mk g1, String.mk g2) else none
      | _ => none
    | _ => none
  | _ => none

/-- The body of the reader loop of `do_upload` for one line, after
`line.decode('ascii').strip()`. `none` models the `AttributeError` that
`m.lastindex` raises when the pattern did not match; a matching line naming
this device updates the state (an unknown state name becomes `ERROR` via the
`except` around `DeviceState[...]`); a matching line naming another device
only prints a report. -/
def readerStep (heap : List (List Entry)) (d : Device) (t : Nat) (l : String) :
    Option (List (List Entry) × Device) :=
  match statusLineMatch l with
  | none => none
  | some (g1, g2) =>
    if g1 = d.device_name then
      some (set_state heap d ((DeviceState.fromName g2).getD DeviceState.ERROR) t)
    else some (heap, d)

/-- The `while True` reader loop of `do_upload` over the worker's whole
output stream. The `Bool` is `true` when the loop ran until the stream
closed (`at_eof`), `false` when an escaping exception ended `do_upload`
through its outer `except Exception` handler. -/
def readerLoop (heap : List (List Entry)) (d : Device) (t : Nat) :
    List String → List (List Entry) × Device × Bool
  | [] => (heap, d, true)
  | l :: ls =>
    match readerStep heap d t l with
    | some p => readerLoop p.1 p.2 (t + 1) ls
    | none => (heap, d, false)

/-- A matching line always yields a next loop state (no exception). -/
theorem readerStep_isSome (heap : List (List Entry)) (d : Device) (t : Nat) (l : String)
    (h : (statusLineMatch l).isSome = true) : (readerStep heap d t l).isSome = true := by
  cases hm : statusLineMatch l with
  | none => rw [hm] at h; simp at h
  | some p =>
    obtain ⟨g1, g2⟩ := p
    by_cases hg : g1 = d.device_name <;> simp [readerStep, hm, hg]

/-- Unfolding one successful loop iteration. -/
theorem readerLoop_cons_some (heap : List (List Entry)) (d : Device) (t : Nat) (l : String)
    (ls : List String) (p : List (List Entry) × Device) (h : readerStep heap d t l = some p) :
    readerLoop heap d t (l :: ls) = readerLoop p.1 p.2 (t + 1) ls := by
  simp [readerLoop, h]

end Front

/-- C2 counterexample: a device mid-SYNCING whose worker emits a line
("oops") that does not match the status pattern, followed by a well-formed
line. `re.search` returns `None`, `m.lastindex` raises `AttributeError`,
`do_upload`'s outer `except Exception` ends the loop: the device's state is
NOT forced to `ERROR` (it stays `SYNCING`), the loop terminates before the
stream closes, and the following line is never processed. -/
theorem claim_C2_counterexample :
    Front.readerLoop [[]]
        { device_name := "dev", deep_sleep_duration := 45,
          state := DeviceState.SYNCING, last_upload := -1, task := none, historyRef := 0 }
        0 ["oops", "[dev,COMPILING]"]
      = ([[]],
         { device_name := "dev", deep_sleep_duration := 45,
           state := DeviceState.SYNCING, last_upload := -1, task := none, historyRef := 0 },
         false) := rfl

/-- C2 (amended): the reader loop runs until the worker's output stream
closes as long as every line matches the exact status pattern — regardless
of which device the lines name or whether the state names are known; a
matching line naming a different device is only reported, the device's
state is untouched and the loop continues; a matching line naming this
device with an unknown state name forces the state to `ERROR` and the loop
continues; but a line that does not match the pattern at all raises an
internal error that terminates the reader loop with the state unchanged. -/
theorem claim_C2 (heap : List (List Front.Entry)) (d : Front.Device) (t : Nat)
    (l g1 g2 : String) (ls lines : List String) :
    ((∀ x ∈ lines, (Front.statusLineMatch x).isSome = true) →
      (Front.readerLoop heap d t lines).2.2 = true) ∧
    (Front.statusLineMatch l = none →
      Front.readerLoop heap d t (l :: ls) = (heap, d, false)) ∧
    (Front.statusLineMatch l = some (g1, g2) → g1 ≠ d.device_name →
      Front.readerLoop heap d t (l :: ls) = Front.readerLoop heap d (t + 1) ls) ∧
    (Front.statusLineMatch l = some (g1, g2) → g1 = d.device_name →
      DeviceState.fromName g2 = none →
      Front.readerLoop heap d t (l :: ls) =
        Front.readerLoop (Front.set_state heap d DeviceState.ERROR t).1
          (Front.set_state heap d DeviceState.ERROR t).2 (t + 1) ls) := by
  refine ⟨?_, ?_, ?_, ?_⟩
  · induction lines generalizing heap d t with
    | nil => intro _; rfl
    | cons x xs ih =>
      intro hall
      have hx := hall x (List.mem_cons_self x xs)
      have hs := Front.readerStep_isSome heap d t x hx
      obtain ⟨p, hp⟩ := Option.isSome_iff_exists.mp hs
      rw [Front.readerLoop_cons_some heap d t x xs p hp]
      exact ih p.1 p.2 (t + 1) (fun y hy => hall y (List.mem_cons_of_mem x hy))
  · intro h
    simp [Front.readerLoop, Front.readerStep, h]
  · intro h hne
    have hp : Front.readerStep heap d t l = some (heap, d) := by
      simp [Front.readerStep, h, hne]
    rw [Front.readerLoop_cons_some heap d t l ls (heap, d) hp]
  · intro h heq hfn
    have hp : Front.readerStep heap d t l
        = some (Front.set_state heap d DeviceState.ERROR t) := by
      simp [Front.readerStep, h, heq, hfn]
    rw [Front.readerLoop_cons_some heap d t l ls _ hp]

/-- C2 witness: the amended claim applied to a stream with a foreign-device
line and an unknown-state line — the loop still reaches end-of-stream. -/
theorem claim_C2_witness :
    (∀ x ∈ ["[other,SYNCING]", "[dev,WEIRD_STATE]"],
      (Front.statusLineMatch x).isSome = true) ∧
    (Front.readerLoop [[]]
        { device_name := "dev", deep_sleep_duration := 45,
          state := DeviceState.SYNCING, last_upload := -1, task := none, historyRef := 0 }
        0 ["[other,SYNCING]", "[dev,WEIRD_STATE]"]).2.2 = true :=
  ⟨by decide,
   (claim_C2 [[]]
      { device_name := "dev", deep_sleep_duration := 45,
        state := DeviceState.SYNCING, last_upload := -1, task := none, historyRef := 0 }
      0 "" "" "" [] ["[other,SYNCING]", "[dev,WEIRD_STATE]"]).1 (by decide)⟩

/-- C10: `history = []` is an unannotated class-level attribute of the
`Device` dataclass, so every instance the registry creates resolves
`self.history` to the one class-level list object (object 0 of the heap)
until `clear_history` rebinds it per instance: a fresh registry device
references object 0; for any two devices still referencing object 0, a
`set_state` on either appends the `(timestamp, state)` entry to the history
observed by both; and a `clear_history` rebinds that device to a fresh,
non-class object. -/
theorem claim_C10 (heap : List (List Front.Entry)) (d1 d2 : Front.Device)
    (st : DeviceState) (t : Nat) :
    (∀ n dur, (Front.Device.make n dur).historyRef = 0) ∧
    (d1.historyRef = 0 → d2.historyRef = 0 → 0 < heap.length →
      Front.heapGet (Front.set_state heap d1 st t).1 d2.historyRef
        = Front.heapGet heap d2.historyRef ++ [(t, st)]) ∧
    (0 < heap.length → (Front.clear_history heap d1).2.historyRef ≠ 0) := by
  refine ⟨fun n dur => rfl, ?_, ?_⟩
  · intro h1 h2 hlen
    simp only [Front.set_state, h1, h2, Front.heapGet]
    rw [List.getElem?_set_eq_of_lt _ hlen]
    rfl
  · intro hlen
    simp only [Front.clear_history]
    exact Nat.pos_iff_ne_zero.mp hlen

/-- C10 witness: two fresh registry devices share the class-level history:
a `set_state` on the first is observed through the second. -/
theorem claim_C10_witness :
    (Front.Device.make "a" 45).historyRef = 0 ∧ (Front.Device.make "b" 600).historyRef = 0 ∧
    Front.heapGet
        (Front.set_state [[]] (Front.Device.make "a" 45) DeviceState.STARTING 7).1
        (Front.Device.make "b" 600).historyRef
      = Front.heapGet [[]] (Front.Device.make "b" 600).historyRef
          ++ [(7, DeviceState.STARTING)] :=
  ⟨rfl, rfl,
   (claim_C10 [[]] (Front.Device.make "a" 45) (Front.Device.make "b" 600)
      DeviceState.STARTING 7).2.1 rfl rfl (by decide)⟩

namespace Front

/-- Ledger record of one task ever spawned with `asyncio.create_task`:
which device's `do_upload` it runs and whether `task.done()` holds. The
ledger index is the task's identity. -/
structure TaskRec where
  owner : String
  done : Bool
  deriving DecidableEq, Repr

/-- The supervisor's ambient state: the heap of history list objects, the
module-level `device_list` dict, the task ledger, and the wall clock. -/
structure Sup where
  heap : List (List Entry)
  devs : String → Option Device
  ledger : List TaskRec
  now : Nat

/-- `(self.task != None) and (not self.task.done())`. -/
def activeTask (s : Sup) (d : Device) : Bool :=
  match d.task with
  | some id =>
    match s.ledger[id]? with
    | some tr => !tr.done
    | none => false
  | none => false

/-- Rebinding one entry of the `device_list` dict. -/
def updDev (devs : String → Option Device) (name : String) (d : Device) :
    String → Option Device :=
  fun n => if n = name then some d else devs n

/-- A task reaches `done()`. -/
def markDone (ledger : List TaskRec) (id : Nat) : List TaskRec :=
  match ledger[id]? with
  | some tr => ledger.set id ⟨tr.owner, true⟩
  | none => ledger

/-- `launch_upload`: refuse unless `self.task` is `None` or done; otherwise
`set_state(STARTING)` and `asyncio.create_task(self.do_upload())` — exactly
one new, not-yet-done ledger entry, referenced by `self.task`. -/
def launch_upload (s : Sup) (name : String) (d : Device) : Sup :=
  if activeTask s d then s
  else
    let p := set_state s.heap d DeviceState.STARTING s.now
    let d2 := { p.2 with task := some s.ledger.length }
    { heap := p.1
      devs := updDev s.devs name d2
      ledger := s.ledger ++ [⟨name, false⟩]
      now := s.now + 1 }

/-- `stop_upload`: only with an active, unfinished task AND
`self.state == SYNCING` is `self.task.cancel()` issued; the resulting
`CancelledError` at the worker's next suspension runs `do_upload`'s handler
(`set_state(CANCELLED)`, `proc.kill()`) and the task completes — modelled
as one settled step. Any other situation changes nothing. -/
def stop_upload (s : Sup) (name : String) (d : Device) : Sup :=
  if activeTask s d then
    if d.state = DeviceState.SYNCING then
      let p := set_state s.heap d DeviceState.CANCELLED s.now
      { heap := p.1
        devs := updDev s.devs name p.2
        ledger := match d.task with
          | some id => markDone s.ledger id
          | none => s.ledger
        now := s.now + 1 }
    else s
  else s

/-- One line of worker output arriving at the device's reader loop (only a
live loop, i.e. an active task, produces lines). A non-matching line raises
out of the loop and `do_upload` returns through its outer handler — the
task completes; a matching line is `readerStep`. -/
def lineStep (s : Sup) (name : String) (l : String) (d : Device) : Sup :=
  if activeTask s d then
    match readerStep s.heap d s.now l with
    | some p =>
      { heap := p.1
        devs := updDev s.devs name p.2
        ledger := s.ledger
        now := s.now + 1 }
    | none =>
      { s with
          ledger := match d.task with
            | some id => markDone s.ledger id
            | none => s.ledger
          now := s.now + 1 }
  else s

/-- The worker's output stream closes: the reader loop leaves at `at_eof`,
`do_upload` returns, the task completes. -/
def endTask (s : Sup) (_name : String) (d : Device) : Sup :=
  if activeTask s d then
    { s with
        ledger := match d.task with
          | some id => markDone s.ledger id
          | none => s.ledger
        now := s.now + 1 }
  else s

/-- Supervisor events: the `update <name>` command path of `do_command`, a
line of a worker's output, a worker stream closing, and the `stop <name>`
command path. An unknown device name only prints "does not exist!". -/
inductive Ev where
  | update (name : String)
  | line (name : String) (l : String)
  | streamEnd (name : String)
  | stop (name : String)

/-- Dispatch of one event against `device_list`. -/
def step (s : Sup) : Ev → Sup
  | .update name =>
    match s.devs name with
    | some d => launch_upload s name d
    | none => s
  | .line name l =>
    match s.devs name with
    | some d => lineStep s name l d
    | none => s
  | .streamEnd name =>
    match s.devs name with
    | some d => endTask s name d
    | none => s
  | .stop name =>
    match s.devs name with
    | some d => stop_upload s name d
    | none => s

/-- A whole interactive session from a start state. -/
def runEvents (s : Sup) : List Ev → Sup
  | [] => s
  | e :: es => runEvents (step s e) es

/-- The state right after `build_device_list` registered the given devices:
the class-level history object, no tasks yet. -/
def initSup (ds : List (String × Nat)) : Sup :=
  { heap := [[]]
    devs := fun n => (ds.find? (fun e => e.1 == n)).map (fun e => Device.make e.1 e.2)
    ledger := []
    now := 0 }

/-- The identities of the still-active tasks owned by a device. -/
def activeIds (s : Sup) (name : String) : List Nat :=
  (List.range s.ledger.length).filter (fun id =>
    match s.ledger[id]? with
    | some tr => !tr.done && tr.owner == name
    | none => false)

/-- Every not-yet-done ledger entry is the one currently referenced by its
owner's `task` attribute. -/
def Inv (s : Sup) : Prop :=
  ∀ id tr, s.ledger[id]? = some tr → tr.done = false →
    ∃ d, s.devs tr.owner = some d ∧ d.task = some id

/-- `rundown`, the whole shutdown path run by `interact` on `exit`:
its body is a bare `return`. -/
def rundown (s : Sup) : Sup := s

end Front

namespace Front

theorem markDone_self (L : List TaskRec) (i : Nat) (tr : TaskRec) (h : L[i]? = some tr) :
    (markDone L i)[i]? = some ⟨tr.owner, true⟩ := by
  simp only [markDone, h]
  exact List.getElem?_set_eq_of_lt _ (List.getElem?_eq_some.mp h).1

theorem markDone_other (L : List TaskRec) (i j : Nat) (h : j ≠ i) :
    (markDone L i)[j]? = L[j]? := by
  simp only [markDone]
  cases hL : L[i]? with
  | none => rfl
  | some tr => exact List.getElem?_set_ne (Ne.symm h)

theorem activeTask_spec (s : Sup) (d : Device) (h : activeTask s d = true) :
    ∃ id tr, d.task = some id ∧ s.ledger[id]? = some tr ∧ tr.done = false := by
  cases ht : d.task with
  | none => simp [activeTask, ht] at h
  | some id =>
    cases hl : s.ledger[id]? with
    | none => simp [activeTask, ht, hl] at h
    | some tr =>
      simp only [activeTask, ht, hl, Bool.not_eq_eq_eq_not, Bool.not_true] at h
      exact ⟨id, tr, rfl, hl, h⟩

theorem readerStep_task (heap : List (List Entry)) (d : Device) (t : Nat) (l : String)
    (p : List (List Entry) × Device) (h : readerStep heap d t l = some p) :
    p.2.task = d.task := by
  simp only [readerStep] at h
  cases hm : statusLineMatch l with
  | none => rw [hm] at h; exact Option.noConfusion h
  | some g =>
    obtain ⟨g1, g2⟩ := g
    simp only [hm] at h
    by_cases hg : g1 = d.device_name
    · rw [if_pos hg] at h
      rw [← Option.some.inj h]
      rfl
    · rw [if_neg hg] at h
      rw [← Option.some.inj h]

/-- Marking the referenced task of some device done preserves the ledger
invariant (the marked entry stops being active; the others are untouched). -/
theorem inv_markDone_ref (s : Sup) (id0 : Nat) (hinv : Inv s) :
    ∀ id tr, (markDone s.ledger id0)[id]? = some tr → tr.done = false →
      ∃ dd, s.devs tr.owner = some dd ∧ dd.task = some id := by
  intro id tr hl hdone
  by_cases hij : id = id0
  · subst hij
    exfalso
    cases hl0 : s.ledger[id]? with
    | none => simp only [markDone, hl0] at hl; exact Option.noConfusion hl
    | some tr0 =>
      rw [markDone_self s.ledger id tr0 hl0] at hl
      rw [← Option.some.inj hl] at hdone
      simp at hdone
  · rw [markDone_other s.ledger id0 id hij] at hl
    exact hinv id tr hl hdone

theorem inv_launch (s : Sup) (name : String) (d : Device) (hdev : s.devs name = some d)
    (hinv : Inv s) : Inv (launch_upload s name d) := by
  by_cases hact : activeTask s d = true
  · rw [launch_upload, if_pos hact]; exact hinv
  · rw [launch_upload, if_neg hact]
    intro id tr hl hdone
    simp only at hl ⊢
    by_cases hid : id < s.ledger.length
    · rw [List.getElem?_append_left hid] at hl
      obtain ⟨d0, hdev0, htask0⟩ := hinv id tr hl hdone
      by_cases howner : tr.owner = name
      · exfalso
        apply hact
        rw [howner, hdev] at hdev0
        have hd0 : d = d0 := Option.some.inj hdev0
        have htaskd : d.task = some id := by rw [hd0]; exact htask0
        simp [activeTask, htaskd, hl, hdone]
      · exact ⟨d0, by simp [updDev, howner, hdev0], htask0⟩
    · have hlen2 : id < s.ledger.length + 1 := by
        have h1 := (List.getElem?_eq_some.mp hl).1
        simpa using h1
      have hideq : id = s.ledger.length :=
        Nat.le_antisymm (Nat.lt_succ_iff.mp hlen2) (Nat.not_lt.mp hid)
      subst hideq
      rw [List.getElem?_concat_length] at hl
      have htr : tr = ⟨name, false⟩ := (Option.some.inj hl).symm
      subst htr
      exact ⟨{ (set_state s.heap d DeviceState.STARTING s.now).2 with
                  task := some s.ledger.length },
             by simp [updDev], rfl⟩

theorem inv_stop (s : Sup) (name : String) (d : Device) (hdev : s.devs name = some d)
    (hinv : Inv s) : Inv (stop_upload s name d) := by
  by_cases hact : activeTask s d = true
  · by_cases hst : d.state = DeviceState.SYNCING
    · rw [stop_upload, if_pos hact, if_pos hst]
      intro id tr hl hdone
      simp only at hl ⊢
      obtain ⟨id0, tr0, htask0, hled0, hdone0⟩ := activeTask_spec s d hact
      simp only [htask0] at hl
      have hbase := inv_markDone_ref s id0 hinv id tr hl hdone
      obtain ⟨d0, hdev0, htask0'⟩ := hbase
      by_cases howner : tr.owner = name
      · exfalso
        rw [howner, hdev] at hdev0
        have hd0 : d = d0 := Option.some.inj hdev0
        rw [← hd0] at htask0'
        rw [htask0] at htask0'
        -- id is still active in the marked ledger, so id ≠ id0; but both equal d.task
        have hij : id ≠ id0 := by
          intro he
          subst he
          cases hl0 : s.ledger[id]? with
          | none => rw [hl0] at hled0; exact Option.noConfusion hled0
          | some trx =>
            rw [markDone_self s.ledger id trx hl0] at hl
            rw [← Option.some.inj hl] at hdone
            simp at hdone
        exact hij (Option.some.inj htask0'.symm)
      · exact ⟨d0, by simp [updDev, howner, hdev0], htask0'⟩
    · rw [stop_upload, if_pos hact, if_neg hst]; exact hinv
  · rw [stop_upload, if_neg hact]; exact hinv

theorem inv_line (s : Sup) (name : String) (l : String) (d : Device)
    (hdev : s.devs name = some d) (hinv : Inv s) : Inv (lineStep s name l d) := by
  by_cases hact : activeTask s d = true
  · rw [lineStep, if_pos hact]
    cases hrs : readerStep s.heap d s.now l with
    | some p =>
      intro id tr hl hdone
      simp only at hl ⊢
      obtain ⟨d0, hdev0, htask0⟩ := hinv id tr hl hdone
      by_cases howner : tr.owner = name
      · rw [howner, hdev] at hdev0
        have hd0 : d = d0 := Option.some.inj hdev0
        refine ⟨p.2, by simp [updDev, howner], ?_⟩
        rw [readerStep_task s.heap d s.now l p hrs, hd0]
        exact htask0
      · exact ⟨d0, by simp [updDev, howner, hdev0], htask0⟩
    | none =>
      intro id tr hl hdone
      simp only at hl ⊢
      cases ht : d.task with
      | none => simp only [ht] at hl; exact hinv id tr hl hdone
      | some id0 =>
        simp only [ht] at hl
        exact inv_markDone_ref s id0 hinv id tr hl hdone
  · rw [lineStep, if_neg hact]; exact hinv

theorem inv_endTask (s : Sup) (name : String) (d : Device)
    (hinv : Inv s) : Inv (endTask s name d) := by
  by_cases hact : activeTask s d = true
  · rw [endTask, if_pos hact]
    intro id tr hl hdone
    simp only at hl ⊢
    cases ht : d.task with
    | none => simp only [ht] at hl; exact hinv id tr hl hdone
    | some id0 =>
      simp only [ht] at hl
      exact inv_markDone_ref s id0 hinv id tr hl hdone
  · rw [endTask, if_neg hact]; exact hinv

theorem inv_step (s : Sup) (ev : Ev) (hinv : Inv s) : Inv (step s ev) := by
  cases ev with
  | update name =>
    cases hdev : s.devs name with
    | none => simp only [step, hdev]; exact hinv
    | some d => simp only [step, hdev]; exact inv_launch s name d hdev hinv
  | line name l =>
    cases hdev : s.devs name with
    | none => simp only [step, hdev]; exact hinv
    | some d => simp only [step, hdev]; exact inv_line s name l d hdev hinv
  | streamEnd name =>
    cases hdev : s.devs name with
    | none => simp only [step, hdev]; exact hinv
    | some d => simp only [step, hdev]; exact inv_endTask s name d hinv
  | stop name =>
    cases hdev : s.devs name with
    | none => simp only [step, hdev]; exact hinv
    | some d => simp only [step, hdev]; exact inv_stop s name d hdev hinv

theorem inv_runEvents (s : Sup) (evs : List Ev) (hinv : Inv s) :
    Inv (runEvents s evs) := by
  induction evs generalizing s with
  | nil => exact hinv
  | cons e es ih => exact ih (step s e) (inv_step s e hinv)

theorem inv_initSup (ds : List (String × Nat)) : Inv (initSup ds) := by
  intro id tr hl
  simp [initSup] at hl

end Front

namespace Front

theorem allEqLengthLeOne (l : List Nat) (k : Nat) (hnd : l.Nodup)
    (hall : ∀ x ∈ l, x = k) : l.length ≤ 1 := by
  cases l with
  | nil => simp
  | cons a t =>
    cases t with
    | nil => simp
    | cons b t2 =>
      exfalso
      have ha := hall a (List.mem_cons_self a _)
      have hb := hall b (List.mem_cons_of_mem a (List.mem_cons_self b _))
      rw [List.nodup_cons] at hnd
      exact hnd.1 (by rw [ha, ← hb]; exact List.mem_cons_self b t2)

theorem activeIds_mem (s : Sup) (name : String) (x : Nat) (hx : x ∈ activeIds s name) :
    ∃ tr, s.ledger[x]? = some tr ∧ tr.done = false ∧ tr.owner = name := by
  rw [activeIds, List.mem_filter] at hx
  obtain ⟨-, hfx⟩ := hx
  cases hlx : s.ledger[x]? with
  | none => simp only [hlx] at hfx; exact Bool.noConfusion hfx
  | some tr =>
    simp only [hlx, Bool.and_eq_true, Bool.not_eq_eq_eq_not, Bool.not_true,
      beq_iff_eq] at hfx
    exact ⟨tr, rfl, hfx.1, hfx.2⟩

/-- Under the ledger invariant, each device owns at most one active task. -/
theorem inv_activeIds_le_one (s : Sup) (hinv : Inv s) (name : String) :
    (activeIds s name).length ≤ 1 := by
  have hnd : (activeIds s name).Nodup := (List.nodup_range _).filter _
  cases hA : activeIds s name with
  | nil => simp
  | cons a rest =>
    have hamem : a ∈ activeIds s name := by rw [hA]; exact List.mem_cons_self a rest
    obtain ⟨tra, hla, hda, hoa⟩ := activeIds_mem s name a hamem
    obtain ⟨d, hdev, htask⟩ := hinv a tra hla hda
    rw [hoa] at hdev
    have hall : ∀ x ∈ activeIds s name, x = a := by
      intro x hx
      obtain ⟨trx, hlx, hdx, hox⟩ := activeIds_mem s name x hx
      obtain ⟨d2, hdev2, htask2⟩ := hinv x trx hlx hdx
      rw [hox, hdev] at hdev2
      have hd2 : d = d2 := Option.some.inj hdev2
      rw [← hd2] at htask2
      rw [htask] at htask2
      exact (Option.some.inj htask2).symm
    rw [← hA]
    exact allEqLengthLeOne (activeIds s name) a hnd hall

end Front

/-- C9: the supervisor spawns at most one active worker per device.
`update <name>` on an unknown device only reports an error and changes
nothing; on a device with an active, unfinished task it refuses
(non-fatally) and changes nothing; otherwise it sets the device to
`STARTING` and spawns exactly one new worker task (one new active ledger
entry, referenced by the device). Along every event sequence from a freshly
loaded registry, every device owns at most one active task. -/
theorem claim_C9 (s : Front.Sup) (name : String) (d : Front.Device)
    (ds : List (String × Nat)) (evs : List Front.Ev) :
    (s.devs name = none → Front.step s (Front.Ev.update name) = s) ∧
    (s.devs name = some d → Front.activeTask s d = true →
      Front.step s (Front.Ev.update name) = s) ∧
    (s.devs name = some d → Front.activeTask s d = false →
      ∃ d2, (Front.step s (Front.Ev.update name)).devs name = some d2 ∧
        d2.state = DeviceState.STARTING ∧
        d2.task = some s.ledger.length ∧
        (Front.step s (Front.Ev.update name)).ledger = s.ledger ++ [⟨name, false⟩]) ∧
    (Front.activeIds (Front.runEvents (Front.initSup ds) evs) name).length ≤ 1 := by
  refine ⟨?_, ?_, ?_, ?_⟩
  · intro h
    simp only [Front.step, h]
  · intro h hact
    simp only [Front.step, h, Front.launch_upload, hact, if_true]
  · intro h hact
    have hstep : Front.step s (Front.Ev.update name)
        = { heap := (Front.set_state s.heap d DeviceState.STARTING s.now).1
            devs := Front.updDev s.devs name
              { (Front.set_state s.heap d DeviceState.STARTING s.now).2 with
                  task := some s.ledger.length }
            ledger := s.ledger ++ [⟨name, false⟩]
            now := s.now + 1 } := by
      simp only [Front.step, h, Front.launch_upload, hact, Bool.false_eq_true, if_false]
    rw [hstep]
    refine ⟨{ (Front.set_state s.heap d DeviceState.STARTING s.now).2 with
                task := some s.ledger.length }, ?_, rfl, rfl, rfl⟩
    simp [Front.updDev]
  · exact Front.inv_activeIds_le_one _
      (Front.inv_runEvents _ evs (Front.inv_initSup ds)) name

/-- C9 witness: the launch semantics applied concretely — an unknown device
is rejected without any state change, and a fresh device launch creates the
`STARTING` state and one task. -/
theorem claim_C9_witness :
    ((Front.initSup [("a", 45)]).devs "zzz" = none ∧
      Front.step (Front.initSup [("a", 45)]) (Front.Ev.update "zzz")
        = Front.initSup [("a", 45)]) ∧
    ((Front.initSup [("a", 45)]).devs "a" = some (Front.Device.make "a" 45) ∧
      Front.activeTask (Front.initSup [("a", 45)]) (Front.Device.make "a" 45) = false ∧
      ∃ d2, (Front.step (Front.initSup [("a", 45)]) (Front.Ev.update "a")).devs "a"
              = some d2 ∧
        d2.state = DeviceState.STARTING ∧
        d2.task = some (Front.initSup [("a", 45)]).ledger.length ∧
        (Front.step (Front.initSup [("a", 45)]) (Front.Ev.update "a")).ledger
          = (Front.initSup [("a", 45)]).ledger ++ [⟨"a", false⟩]) :=
  ⟨⟨rfl, (claim_C9 (Front.initSup [("a", 45)]) "zzz" (Front.Device.make "a" 45) [] []).1 rfl⟩,
   ⟨rfl, rfl,
    (claim_C9 (Front.initSup [("a", 45)]) "a" (Front.Device.make "a" 45) [] []).2.2.1
      rfl rfl⟩⟩

/-- C3 counterexample: a session that launches an upload for device "a",
sees its worker report `SYNCING`, then sees the worker's output stream close
(worker died without a further status line) — the device is left in state
`SYNCING` with a finished task. A `stop` arriving now is NOT honored:
`stop_upload`'s guard `(self.task != None) and (not self.task.done())` fails
first, so nothing is cancelled and the state stays `SYNCING`, never becoming
`CANCELLED` — "honored if and only if the state is SYNCING" is false. -/
theorem claim_C3_counterexample :
    Option.map Front.Device.state
        ((Front.runEvents (Front.initSup [("a", 45)])
          [Front.Ev.update "a", Front.Ev.line "a" "[a,SYNCING]",
           Front.Ev.streamEnd "a"]).devs "a")
      = some DeviceState.SYNCING ∧
    Front.step
        (Front.runEvents (Front.initSup [("a", 45)])
          [Front.Ev.update "a", Front.Ev.line "a" "[a,SYNCING]",
           Front.Ev.streamEnd "a"])
        (Front.Ev.stop "a")
      = Front.runEvents (Front.initSup [("a", 45)])
          [Front.Ev.update "a", Front.Ev.line "a" "[a,SYNCING]",
           Front.Ev.streamEnd "a"] :=
  ⟨rfl, rfl⟩

/-- C3 (amended): `stop` is honored if and only if the device has an active,
unfinished task AND its state is `SYNCING`: with no active task the request
does nothing even if the state reads `SYNCING`; with an active task in any
state other than `SYNCING` (`STARTING`, `COMPILING`, `UPLOADING`, ...) the
request is refused and the whole supervisor state is unchanged; with an
active task in `SYNCING` the task is cancelled, the device's state
transitions to `CANCELLED`, and its task is no longer active. -/
theorem claim_C3 (s : Front.Sup) (name : String) (d : Front.Device) :
    (s.devs name = some d → Front.activeTask s d = false →
      Front.step s (Front.Ev.stop name) = s) ∧
    (s.devs name = some d → Front.activeTask s d = true →
      d.state ≠ DeviceState.SYNCING → Front.step s (Front.Ev.stop name) = s) ∧
    (s.devs name = some d → Front.activeTask s d = true →
      d.state = DeviceState.SYNCING →
      ∃ d2, (Front.step s (Front.Ev.stop name)).devs name = some d2 ∧
        d2.state = DeviceState.CANCELLED ∧
        Front.activeTask (Front.step s (Front.Ev.stop name)) d2 = false) := by
  refine ⟨?_, ?_, ?_⟩
  · intro h hact
    simp only [Front.step, h, Front.stop_upload, hact, Bool.false_eq_true, if_false]
  · intro h hact hst
    simp only [Front.step, h, Front.stop_upload, hact, if_true, hst, if_false]
  · intro h hact hst
    obtain ⟨id0, tr0, htask0, hled0, hdone0⟩ := Front.activeTask_spec s d hact
    have hstep : Front.step s (Front.Ev.stop name)
        = { heap := (Front.set_state s.heap d DeviceState.CANCELLED s.now).1
            devs := Front.updDev s.devs name
              (Front.set_state s.heap d DeviceState.CANCELLED s.now).2
            ledger := Front.markDone s.ledger id0
            now := s.now + 1 } := by
      simp only [Front.step, h, Front.stop_upload, hact, if_true, hst, if_pos, htask0]
    rw [hstep]
    refine ⟨(Front.set_state s.heap d DeviceState.CANCELLED s.now).2,
      by simp [Front.updDev], rfl, ?_⟩
    have htask2 : (Front.set_state s.heap d DeviceState.CANCELLED s.now).2.task
        = some id0 := htask0
    simp only [Front.activeTask, htask2,
      Front.markDone_self s.ledger id0 tr0 hled0, Bool.not_true]

/-- C3 witness: the amended claim applied concretely — stopping a device
whose active worker just reported `SYNCING` cancels it into `CANCELLED` with
no active task left. -/
theorem claim_C3_witness :
    ((Front.runEvents (Front.initSup [("a", 45)])
        [Front.Ev.update "a", Front.Ev.line "a" "[a,SYNCING]"]).devs "a"
      = some { device_name := "a", deep_sleep_duration := 45,
               state := DeviceState.SYNCING, last_upload := -1,
               task := some 0, historyRef := 0 }) ∧
    Front.activeTask
        (Front.runEvents (Front.initSup [("a", 45)])
          [Front.Ev.update "a", Front.Ev.line "a" "[a,SYNCING]"])
        { device_name := "a", deep_sleep_duration := 45,
          state := DeviceState.SYNCING, last_upload := -1,
          task := some 0, historyRef := 0 } = true ∧
    (∃ d2, (Front.step
          (Front.runEvents (Front.initSup [("a", 45)])
            [Front.Ev.update "a", Front.Ev.line "a" "[a,SYNCING]"])
          (Front.Ev.stop "a")).devs "a" = some d2 ∧
      d2.state = DeviceState.CANCELLED ∧
      Front.activeTask
          (Front.step
            (Front.runEvents (Front.initSup [("a", 45)])
              [Front.Ev.update "a", Front.Ev.line "a" "[a,SYNCING]"])
            (Front.Ev.stop "a")) d2 = false) :=
  ⟨rfl, rfl,
   (claim_C3
      (Front.runEvents (Front.initSup [("a", 45)])
        [Front.Ev.update "a", Front.Ev.line "a" "[a,SYNCING]"]) "a"
      { device_name := "a", deep_sleep_duration := 45,
        state := DeviceState.SYNCING, last_upload := -1,
        task := some 0, historyRef := 0 }).2.2 rfl rfl rfl⟩

/-- C8: the shutdown path is an unimplemented stub. `interact`'s exit path
calls `rundown()`, whose body is a bare `return`: it cancels nothing and
waits for nothing, contradicting both the claim and the program's own header
comment ("On exit, all upload tasks are stopped ... the application will
wait for its completion"). Evaluated at a session with device "a" mid-wait:
after `rundown` the worker task is still active and the device still sits in
`SYNCING` with its retained "ON" wake intent unresolved. -/
theorem claim_C8 :
    (∀ s : Front.Sup, Front.rundown s = s) ∧
    Front.activeIds
        (Front.rundown (Front.runEvents (Front.initSup [("a", 45)])
          [Front.Ev.update "a", Front.Ev.line "a" "[a,SYNCING]"])) "a" = [0] ∧
    Option.map Front.Device.state
        ((Front.rundown (Front.runEvents (Front.initSup [("a", 45)])
          [Front.Ev.update "a", Front.Ev.line "a" "[a,SYNCING]"])).devs "a")
      = some DeviceState.SYNCING :=
  ⟨fun _ => rfl, by decide, rfl⟩
